import Mathlib

/-!
Shallow embedding of the LyriCraft Telegram bot (src/bot.py) and proofs about it.

The bot keeps all per-conversation state in module-level dictionaries keyed by
the chat id (search_results, current_page, queries, recent_queries,
last_download_time, result_message_id, result_photo_id).  No two chat ids ever
interact, so the embedding models the state of one conversation as a `Session`
record; a field is an `Option` when the source checks dictionary membership for
it, and a plain value when the source relies on a defaultdict default.

Timestamps are modelled as microseconds (the resolution of Python `datetime`)
represented as `Int`; `datetime.min` (the default of last_download_time) is 0.
`timedelta.total_seconds()` followed by `int(...)` on a positive remainder is
integer division by 1,000,000 (truncation toward zero equals floor there).

Each handler becomes a pure function from the session, the event data, and an
environment record carrying the responses of the external collaborators (the
Spotify search response, the spotdl subprocess behaviour, message ids returned
by Telegram) to the new session plus a `Reply` describing the visible outcome.
Pure I/O (logging, typing indicators, the scheduled message deletions) has no
session effect and is not modelled.
-/

/-! Constants from src/bot.py lines 54-56. -/

def ITEMS_PER_PAGE : Nat := 5

/-- timedelta(seconds=30), in microseconds. -/
def DOWNLOAD_COOLDOWN : Int := 30000000

/-- SPOTDL_TIMEOUT = 60 (seconds). -/
def SPOTDL_TIMEOUT : Nat := 60

/-- The literal timeout=5 (seconds) on process creation, in microseconds. -/
def STARTUP_TIMEOUT_USEC : Nat := 5000000

/-- A track as returned by the Spotify search (the fields the bot reads). -/
structure Track where
  name : String
  artists : List String
  durationMs : Nat
  url : String
  coverUrl : Option String
  deriving Repr, DecidableEq

/-- Per-conversation state: one entry of each module-level dictionary. -/
structure Session where
  searchResults : Option (List Track)
  currentPage : Option Nat
  activeQuery : Option String
  recentQueries : List String
  lastDownloadTime : Int
  resultMessageId : Option Nat
  resultPhotoId : Option Nat
  deriving Repr, DecidableEq

/-- State of a conversation that has had no interaction yet. -/
def initialSession : Session :=
  { searchResults := none, currentPage := none, activeQuery := none,
    recentQueries := [], lastDownloadTime := 0,
    resultMessageId := none, resultPhotoId := none }

/-! Python string helpers used by the source (ASCII fragment, which covers the
    characters the bot actually compares). -/

/-- str.lower() on one character (ASCII). -/
def lowerChar (c : Char) : Char :=
  if 'A' ≤ c ∧ c ≤ 'Z' then Char.ofNat (c.toNat + 32) else c

/-- f.lower().endswith(".mp3") from find_mp3_file (bot.py line 312). -/
def isMp3Name (f : String) : Bool :=
  [ '.', 'm', 'p', '3' ].isSuffixOf (f.data.map lowerChar)

def isSpaceChar (c : Char) : Bool :=
  c = ' ' || c = '\t' || c = '\n' || c = '\r'

/-- str.strip() (ASCII whitespace). -/
def pyStrip (s : String) : String :=
  String.mk (((s.data.dropWhile isSpaceChar).reverse.dropWhile isSpaceChar).reverse)

/-- Python list indexing semantics: nonnegative indices from the front,
    negative indices from the back, IndexError (`none`) otherwise. -/
def pyGet {α : Type} (xs : List α) (i : Int) : Option α :=
  if 0 ≤ i then xs.get? i.toNat
  else if 0 ≤ (xs.length : Int) + i then xs.get? ((xs.length : Int) + i).toNat
  else none

/-! The scratch directory contents: a file-system tree.  A node holds the
    subdirectories (in listing order) and the plain file names of one
    directory. -/

mutual
inductive FSTree where
  | node : FSForest → List String → FSTree
inductive FSForest where
  | nil : FSForest
  | cons : String → FSTree → FSForest → FSForest
end

/-- os.path.join on POSIX. -/
def pathJoin (a b : String) : String := a ++ "/" ++ b

/- os.walk(directory) top-down: yield the directory itself (with its file
   names), then recurse into each subdirectory in order. -/
mutual
def os_walk (root : String) : FSTree → List (String × List String)
  | .node dirs files => (root, files) :: os_walk_forest root dirs
def os_walk_forest (root : String) : FSForest → List (String × List String)
  | .nil => []
  | .cons name t rest => os_walk (pathJoin root name) t ++ os_walk_forest root rest
end

/-- The nested loops of find_mp3_file: first matching file of the walk wins. -/
def find_in_walk : List (String × List String) → Option String
  | [] => none
  | (root, files) :: rest =>
    match files.find? isMp3Name with
    | some f => some (pathJoin root f)
    | none => find_in_walk rest

/-- find_mp3_file (bot.py lines 308-314): recursively search for the first
    MP3 file under a directory, returning its full path. -/
def find_mp3_file (directory : String) (t : FSTree) : Option String :=
  find_in_walk (os_walk directory t)

/- Whether an MP3-named file exists anywhere in the tree. -/
mutual
def treeHasMp3 : FSTree → Bool
  | .node dirs files => files.any isMp3Name || forestHasMp3 dirs
def forestHasMp3 : FSForest → Bool
  | .nil => false
  | .cons _ t rest => treeHasMp3 t || forestHasMp3 rest
end

/-! Download orchestration (download_and_send_audio, bot.py lines 316-408). -/

/-- How one download attempt ends. -/
inductive DLOutcome where
  | startupTimeout
  | executionTimeout
  | toolFailure (stderrText : String)
  | artifactMissing
  | delivered (path : String)
  | sendError (path : String)
  deriving Repr, DecidableEq

/-- Outcome plus whether process.kill() was invoked. -/
structure DLResult where
  outcome : DLOutcome
  killed : Bool
  deriving Repr, DecidableEq

/-- Behaviour of one spotdl invocation and its surroundings: how long process
    creation takes, how long the process runs, its exit data, the scratch
    directory contents afterwards, and whether Telegram accepts the audio. -/
structure DownloadEnv where
  startUSec : Nat
  runUSec : Nat
  exitCode : Int
  stdoutText : String
  stderrText : String
  tmpdir : String
  tree : FSTree
  sendAudioOk : Bool

/-- download_and_send_audio: wait_for(create_subprocess_exec, timeout=5), then
    wait_for(communicate, timeout=SPOTDL_TIMEOUT) with kill() on expiry, then
    the non-zero-exit check, then find_mp3_file, then send_audio. -/
def download_and_send_audio (env : DownloadEnv) : DLResult :=
  if STARTUP_TIMEOUT_USEC < env.startUSec then
    { outcome := DLOutcome.startupTimeout, killed := false }
  else if SPOTDL_TIMEOUT * 1000000 < env.runUSec then
    { outcome := DLOutcome.executionTimeout, killed := true }
  else if env.exitCode ≠ 0 then
    { outcome := DLOutcome.toolFailure env.stderrText, killed := false }
  else
    match find_mp3_file env.tmpdir env.tree with
    | none => { outcome := DLOutcome.artifactMissing, killed := false }
    | some p =>
      if env.sendAudioOk then { outcome := DLOutcome.delivered p, killed := false }
      else { outcome := DLOutcome.sendError p, killed := false }

/-- The user-facing message each failure outcome produces (none on success). -/
def failure_message : DLOutcome → Option String
  | DLOutcome.startupTimeout => some "❌ Download setup timed out."
  | DLOutcome.executionTimeout => some "❌ Download timed out after 60 seconds."
  | DLOutcome.toolFailure s => some ("❌ Download failed:\n`" ++ s ++ "`")
  | DLOutcome.artifactMissing =>
      some "❌ Download failed. No MP3 file found. (Check log for spotDL output.)"
  | DLOutcome.sendError _ => some "⚠️ Error sending audio to Telegram."
  | DLOutcome.delivered _ => none

/-! Rendering helpers (display_search_results, bot.py lines 124-207). -/

/-- math.ceil(a / b) for natural numbers, b > 0. -/
def ceil_div (a b : Nat) : Nat := (a + b - 1) / b

/-- format_duration (bot.py lines 170-173). -/
def format_duration (ms : Nat) : String :=
  let seconds := ms / 1000
  let minutes := seconds / 60
  let sec := seconds % 60
  toString minutes ++ ":" ++ (if sec < 10 then "0" ++ toString sec else toString sec)

/-- Button text for one track (bot.py lines 175-178). -/
def buttonLabel (t : Track) : String :=
  t.name ++ " — " ++ String.intercalate ", " t.artists ++ " [" ++
    format_duration t.durationMs ++ "]"

/-- tracks[start:end] with start = (page-1)*ITEMS_PER_PAGE. -/
def pageWindow (tracks : List Track) (page : Nat) : List Track :=
  (tracks.drop ((page - 1) * ITEMS_PER_PAGE)).take ITEMS_PER_PAGE

/-- The track buttons of one page: label plus the track_<idx> callback index,
    from enumerate(tracks[start:end], start=start). -/
def trackButtons (tracks : List Track) (page : Nat) : List (String × Nat) :=
  (pageWindow tracks page).enum.map
    (fun p => (buttonLabel p.2, (page - 1) * ITEMS_PER_PAGE + p.1))

/-- What a handler visibly does; one constructor per distinct reply shape. -/
inductive Reply where
  | emptyQuery
  | noResults
  | rendered (q : String) (page total : Nat) (buttons : List (String × Nat))
      (hasBack hasNext : Bool)
  | sessionExpired
  | rateLimited (waitSeconds : Int)
  | handlerError
  | downloadStarted (name artist : String) (result : DLResult)
  | pageDownload (page : Nat) (results : List DLResult)
  deriving Repr, DecidableEq

/-- External responses consumed by display_search_results: the Spotify search
    result for the query, and the Telegram message ids of the poster photo and
    of the results message (none when the respective send failed). -/
structure DisplayEnv where
  tracks : List Track
  photoMsgId : Option Nat
  resultMsgId : Option Nat
  deriving Repr, DecidableEq

/-- display_search_results (bot.py lines 124-207).  On an empty search
    response it only reports "No results found."; otherwise it stores the new
    results, page and query, retires the previously pinned messages, sends the
    poster (when the first track has cover art) and the track list, and
    remembers the new message ids. -/
def display_search_results (s : Session) (q : String) (page : Nat)
    (env : DisplayEnv) : Session × Reply :=
  if env.tracks = [] then (s, Reply.noResults)
  else
    let tracks := env.tracks
    let s1 : Session :=
      { s with searchResults := some tracks, currentPage := some page,
               activeQuery := some q }
    let totalPages := max 1 (ceil_div tracks.length ITEMS_PER_PAGE)
    let pg := max 1 (min page totalPages)
    let s2 : Session := { s1 with resultMessageId := none, resultPhotoId := none }
    let hasPoster :=
      match tracks.head? with
      | some t => t.coverUrl.isSome
      | none => false
    let s3 : Session :=
      if hasPoster then { s2 with resultPhotoId := env.photoMsgId } else s2
    let s4 : Session :=
      match env.resultMsgId with
      | some mid => { s3 with resultMessageId := some mid }
      | none => s3
    (s4, Reply.rendered q pg totalPages (trackButtons tracks pg)
      (decide (1 < pg)) (decide (pg < totalPages)))

/-- The recent_queries update of search_and_display (bot.py lines 110-113). -/
def updateRecent (rq : List String) (q : String) : List String :=
  if q ∈ rq then rq
  else
    let rq2 := rq ++ [q]
    if rq2.length > 20 then rq2.drop 1 else rq2

/-- search_and_display (bot.py lines 102-114): strip the text, reject an empty
    query, record it in the history, then search and render page 1. -/
def search_and_display (s : Session) (text : String) (env : DisplayEnv) :
    Session × Reply :=
  let q := pyStrip text
  if q = "" then (s, Reply.emptyQuery)
  else
    let s1 : Session := { s with recentQueries := updateRecent s.recentQueries q }
    display_search_results s1 q 1 env

inductive NavDir where
  | next
  | prev
  deriving Repr, DecidableEq

/-- handle_pagination (bot.py lines 209-226): session check, page step, clamp
    against the stored results, then re-search and re-render via
    display_search_results. -/
def handle_pagination (s : Session) (d : NavDir) (env : DisplayEnv) :
    Session × Reply :=
  match s.currentPage, s.activeQuery with
  | some p, some q =>
    let p1 :=
      match d with
      | NavDir.next => p + 1
      | NavDir.prev => p - 1
    let total := max 1 (ceil_div (s.searchResults.getD []).length ITEMS_PER_PAGE)
    let p2 := max 1 (min p1 total)
    let s1 : Session := { s with currentPage := some p2 }
    display_search_results s1 q p2 env
  | _, _ => (s, Reply.sessionExpired)

/-- select_song (bot.py lines 228-260): cooldown gate, timestamp reservation,
    session check, track lookup (IndexError lands in the except branch), then
    the download.  `idx` is the integer parsed from the track_<idx> callback
    data. -/
def select_song (s : Session) (idx : Int) (now : Int) (env : DownloadEnv) :
    Session × Reply :=
  if now - s.lastDownloadTime < DOWNLOAD_COOLDOWN then
    (s, Reply.rateLimited ((DOWNLOAD_COOLDOWN - (now - s.lastDownloadTime)) / 1000000))
  else
    let s1 : Session := { s with lastDownloadTime := now }
    match s1.searchResults with
    | none => (s1, Reply.sessionExpired)
    | some tracks =>
      match pyGet tracks idx with
      | none => (s1, Reply.handlerError)
      | some track =>
        (s1, Reply.downloadStarted track.name
          (String.intercalate ", " track.artists) (download_and_send_audio env))

/-- download_page (bot.py lines 263-306): cooldown gate, timestamp
    reservation, session check, then one download per track of the current
    page window (each with its own subprocess environment). -/
def download_page (s : Session) (now : Int) (envs : Nat → DownloadEnv) :
    Session × Reply :=
  if now - s.lastDownloadTime < DOWNLOAD_COOLDOWN then
    (s, Reply.rateLimited ((DOWNLOAD_COOLDOWN - (now - s.lastDownloadTime)) / 1000000))
  else
    let s1 : Session := { s with lastDownloadTime := now }
    match s1.searchResults, s1.currentPage with
    | some tracks, some page =>
      (s1, Reply.pageDownload page
        ((pageWindow tracks page).enum.map (fun p => download_and_send_audio (envs p.1))))
    | _, _ => (s1, Reply.sessionExpired)

/-! Concrete sample data used by witnesses and counterexamples. -/

def track1 : Track := { name := "a", artists := ["x"], durationMs := 61000,
                        url := "u1", coverUrl := none }

def track2 : Track := { name := "b", artists := ["y"], durationMs := 2000,
                        url := "u2", coverUrl := some "cv" }

def track3 : Track := { name := "c", artists := ["z"], durationMs := 333000,
                        url := "u3", coverUrl := none }

def threeTracks : List Track := [track1, track2, track3]

/-- A session that has completed one successful search. -/
def sessionWithThree : Session :=
  { searchResults := some threeTracks, currentPage := some 1,
    activeQuery := some "q", recentQueries := ["q"], lastDownloadTime := 0,
    resultMessageId := some 11, resultPhotoId := none }

/-- A subprocess environment that starts and exits cleanly but produces no
    file. -/
def dummyDLEnv : DownloadEnv :=
  { startUSec := 0, runUSec := 0, exitCode := 0, stdoutText := "",
    stderrText := "", tmpdir := "/tmp/dl", tree := FSTree.node FSForest.nil [],
    sendAudioOk := true }

/-- output/sub/TRACK.Mp3 nested two directories deep in the scratch dir. -/
def nestedTree : FSTree :=
  FSTree.node
    (FSForest.cons "output"
      (FSTree.node
        (FSForest.cons "sub" (FSTree.node FSForest.nil ["TRACK.Mp3"]) FSForest.nil)
        [])
      FSForest.nil)
    []

def nestedDLEnv : DownloadEnv :=
  { startUSec := 3000000, runUSec := 100, exitCode := 0, stdoutText := "",
    stderrText := "", tmpdir := "/tmp/dl", tree := nestedTree,
    sendAudioOk := true }

def emptyDisplayEnv : DisplayEnv :=
  { tracks := [], photoMsgId := none, resultMsgId := none }

def twoTrackDisplayEnv : DisplayEnv :=
  { tracks := [track2, track3], photoMsgId := some 21, resultMsgId := some 22 }

/-! Helper lemmas. -/

theorem find_in_walk_isSome (L : List (String × List String)) :
    (find_in_walk L).isSome = L.any (fun rf => rf.2.any isMp3Name) := by
  induction L with
  | nil => rfl
  | cons hd tl ih =>
    cases hd with
    | mk root files =>
      simp only [find_in_walk, List.any_cons]
      cases hf : files.find? isMp3Name with
      | none =>
        have hfa : files.any isMp3Name = false := by
          rw [List.any_eq_false]
          intro x hx
          exact List.find?_eq_none.mp hf x hx
        simp [hfa, ih]
      | some f =>
        have hfa : files.any isMp3Name = true :=
          List.any_eq_true.mpr ⟨f, List.mem_of_find?_eq_some hf, List.find?_some hf⟩
        simp [hfa]

mutual
theorem os_walk_any (root : String) (t : FSTree) :
    ((os_walk root t).any fun rf => rf.2.any isMp3Name) = treeHasMp3 t := by
  cases t with
  | node dirs files =>
    simp only [os_walk, treeHasMp3, List.any_cons]
    rw [os_walk_forest_any]
theorem os_walk_forest_any (root : String) (f : FSForest) :
    ((os_walk_forest root f).any fun rf => rf.2.any isMp3Name) = forestHasMp3 f := by
  cases f with
  | nil => rfl
  | cons name t rest =>
    simp only [os_walk_forest, forestHasMp3, List.any_append]
    rw [os_walk_any, os_walk_forest_any]
end

theorem find_mp3_file_isSome (d : String) (t : FSTree) :
    (find_mp3_file d t).isSome = treeHasMp3 t := by
  rw [find_mp3_file, find_in_walk_isSome, os_walk_any]

theorem find_mp3_file_eq_none (d : String) (t : FSTree) :
    find_mp3_file d t = none ↔ treeHasMp3 t = false := by
  rw [← find_mp3_file_isSome d t]
  cases find_mp3_file d t <;> simp

theorem display_empty (s : Session) (q : String) (page : Nat) (env : DisplayEnv)
    (h : env.tracks = []) :
    display_search_results s q page env = (s, Reply.noResults) := by
  rw [display_search_results, if_pos h]

theorem display_fields (s : Session) (q : String) (page : Nat) (env : DisplayEnv)
    (h : env.tracks ≠ []) :
    (display_search_results s q page env).1.searchResults = some env.tracks ∧
    (display_search_results s q page env).1.currentPage = some page ∧
    (display_search_results s q page env).1.activeQuery = some q ∧
    (display_search_results s q page env).1.recentQueries = s.recentQueries ∧
    (display_search_results s q page env).1.lastDownloadTime = s.lastDownloadTime ∧
    (display_search_results s q page env).2 =
      Reply.rendered q
        (max 1 (min page (max 1 (ceil_div env.tracks.length ITEMS_PER_PAGE))))
        (max 1 (ceil_div env.tracks.length ITEMS_PER_PAGE))
        (trackButtons env.tracks
          (max 1 (min page (max 1 (ceil_div env.tracks.length ITEMS_PER_PAGE)))))
        (decide (1 < max 1 (min page (max 1 (ceil_div env.tracks.length ITEMS_PER_PAGE)))))
        (decide (max 1 (min page (max 1 (ceil_div env.tracks.length ITEMS_PER_PAGE))) <
          max 1 (ceil_div env.tracks.length ITEMS_PER_PAGE))) := by
  rw [display_search_results, if_neg h]
  dsimp only
  refine ⟨?_, ?_, ?_, ?_, ?_, rfl⟩ <;> (split <;> (try split) <;> rfl)

theorem display_currentPage (s : Session) (q : String) (page : Nat) (env : DisplayEnv) :
    (display_search_results s q page env).1.currentPage =
      if env.tracks = [] then s.currentPage else some page := by
  by_cases h : env.tracks = []
  · rw [display_empty s q page env h, if_pos h]
  · rw [if_neg h]
    exact (display_fields s q page env h).2.1

theorem updateRecent_invariant (rq : List String) (q : String)
    (hn : rq.Nodup) (hl : rq.length ≤ 20) :
    (updateRecent rq q).Nodup ∧ (updateRecent rq q).length ≤ 20 := by
  rw [updateRecent]
  by_cases h : q ∈ rq
  · rw [if_pos h]; exact ⟨hn, hl⟩
  · rw [if_neg h]
    dsimp only
    have happ : (rq ++ [q]).Nodup := by
      simp [List.nodup_append, hn, h]
    by_cases h2 : (rq ++ [q]).length > 20
    · rw [if_pos h2]
      refine ⟨happ.sublist (List.drop_sublist 1 _), ?_⟩
      simp only [List.length_drop, List.length_append, List.length_singleton]
      omega
    · rw [if_neg h2]
      refine ⟨happ, ?_⟩
      simp only [List.length_append, List.length_singleton] at h2 ⊢
      omega

theorem foldl_updateRecent_invariant (qs : List String) (rq : List String)
    (hn : rq.Nodup) (hl : rq.length ≤ 20) :
    (qs.foldl updateRecent rq).Nodup ∧ (qs.foldl updateRecent rq).length ≤ 20 := by
  induction qs generalizing rq with
  | nil => exact ⟨hn, hl⟩
  | cons q qs ih =>
    have h := updateRecent_invariant rq q hn hl
    exact ih (updateRecent rq q) h.1 h.2

theorem pyGet_none {α : Type} (xs : List α) (i : Int)
    (h : (xs.length : Int) ≤ i ∨ (xs.length : Int) + i < 0) : pyGet xs i = none := by
  rw [pyGet]
  by_cases h0 : 0 ≤ i
  · rw [if_pos h0]
    apply List.get?_eq_none.mpr
    omega
  · rw [if_neg h0]
    have h1 : ¬ (0 ≤ (xs.length : Int) + i) := by omega
    rw [if_neg h1]

/-! Claim C1. -/

/-- C1 (counterexample): with 29.5 seconds of the cooldown elapsed the
    remaining time is strictly positive (0.5 s, ceiling 1), yet select_song
    denies with a reported wait of 0 seconds — the message carries the
    truncated value, not the ceiling, and it is not strictly positive. -/
theorem c1_counterexample :
    (select_song initialSession 0 29500000 dummyDLEnv).2 = Reply.rateLimited 0 ∧
    (0 : Int) < DOWNLOAD_COOLDOWN - (29500000 - initialSession.lastDownloadTime) ∧
    ¬ (0 : Int) < 0 := by
  decide

/-- C1 (amended): a select-one or download-page request with
    now - lastDownloadAt < 30 s is denied, the denial message reports the
    remaining seconds rounded DOWN (which can be 0), and the session — in
    particular lastDownloadAt — is unchanged; a request with
    now - lastDownloadAt ≥ 30 s passes the gate and sets lastDownloadAt to
    now.  The reported value w is the floor of the remaining microseconds
    over 1,000,000. -/
theorem c1_rate_gate (s : Session) (idx now : Int) (env : DownloadEnv)
    (envs : Nat → DownloadEnv) :
    (now - s.lastDownloadTime < DOWNLOAD_COOLDOWN →
      (select_song s idx now env).2 =
        Reply.rateLimited ((DOWNLOAD_COOLDOWN - (now - s.lastDownloadTime)) / 1000000) ∧
      (select_song s idx now env).1 = s ∧
      (download_page s now envs).2 =
        Reply.rateLimited ((DOWNLOAD_COOLDOWN - (now - s.lastDownloadTime)) / 1000000) ∧
      (download_page s now envs).1 = s ∧
      (∀ w : Int,
        (select_song s idx now env).2 = Reply.rateLimited w →
        w * 1000000 ≤ DOWNLOAD_COOLDOWN - (now - s.lastDownloadTime) ∧
        DOWNLOAD_COOLDOWN - (now - s.lastDownloadTime) < (w + 1) * 1000000)) ∧
    (DOWNLOAD_COOLDOWN ≤ now - s.lastDownloadTime →
      (select_song s idx now env).1.lastDownloadTime = now ∧
      (download_page s now envs).1.lastDownloadTime = now) := by
  constructor
  · intro h
    rw [select_song, if_pos h, download_page, if_pos h]
    refine ⟨rfl, rfl, rfl, rfl, ?_⟩
    intro w hw
    have hw2 : w = (DOWNLOAD_COOLDOWN - (now - s.lastDownloadTime)) / 1000000 := by
      cases hw; rfl
    subst hw2
    omega
  · intro h
    have hn : ¬ (now - s.lastDownloadTime < DOWNLOAD_COOLDOWN) := by omega
    rw [select_song, if_neg hn, download_page, if_neg hn]
    dsimp only
    constructor
    · cases ({ s with lastDownloadTime := now } : Session).searchResults with
      | none => rfl
      | some tracks =>
        dsimp only
        cases pyGet tracks idx <;> rfl
    · cases hsr : ({ s with lastDownloadTime := now } : Session).searchResults with
      | none => rfl
      | some tracks =>
        cases hcp : ({ s with lastDownloadTime := now } : Session).currentPage with
        | none => simp [hsr, hcp]
        | some page => simp [hsr, hcp]

/-- C1 (witness): the amended theorem applied concretely — 10 s after a
    reservation the wait reported is 20 s and the session is unchanged; at
    exactly 30 s the gate passes and records the new timestamp. -/
theorem c1_rate_gate_witness :
    (select_song sessionWithThree 0 10000000 dummyDLEnv).2 = Reply.rateLimited 20 ∧
    (select_song sessionWithThree 0 10000000 dummyDLEnv).1 = sessionWithThree ∧
    (select_song sessionWithThree 0 30000000 dummyDLEnv).1.lastDownloadTime = 30000000 := by
  have h1 := (c1_rate_gate sessionWithThree 0 10000000 dummyDLEnv
    (fun _ => dummyDLEnv)).1 (by decide)
  have h2 := (c1_rate_gate sessionWithThree 0 30000000 dummyDLEnv
    (fun _ => dummyDLEnv)).2 (by decide)
  refine ⟨?_, h1.2.1, h2.1⟩
  rw [h1.1]
  decide

/-! Claim C9. -/

/-- C9 (confirmed): the cooldown gate runs before session validation (within
    the cooldown the reply is the rate-limit denial even when no search
    exists), and a reservation is never rolled back: whenever the gate
    passes, lastDownloadAt is set to now — also when the handler then answers
    "session expired" or the download fails — so any retry within the next
    30 seconds is denied. -/
theorem c9_gate_reservation (s : Session) (idx now : Int) (env : DownloadEnv)
    (envs : Nat → DownloadEnv) :
    (now - s.lastDownloadTime < DOWNLOAD_COOLDOWN → s.searchResults = none →
      (select_song s idx now env).2 =
        Reply.rateLimited ((DOWNLOAD_COOLDOWN - (now - s.lastDownloadTime)) / 1000000)) ∧
    (DOWNLOAD_COOLDOWN ≤ now - s.lastDownloadTime →
      (select_song s idx now env).1.lastDownloadTime = now ∧
      (download_page s now envs).1.lastDownloadTime = now ∧
      (s.searchResults = none →
        (select_song s idx now env).2 = Reply.sessionExpired ∧
        ∀ (idx2 now2 : Int) (env2 : DownloadEnv), now2 - now < DOWNLOAD_COOLDOWN →
          (select_song (select_song s idx now env).1 idx2 now2 env2).2 =
            Reply.rateLimited ((DOWNLOAD_COOLDOWN - (now2 - now)) / 1000000))) := by
  constructor
  · intro h _
    rw [select_song, if_pos h]
  · intro h
    have hn : ¬ (now - s.lastDownloadTime < DOWNLOAD_COOLDOWN) := by omega
    have hsel : ∀ e : DownloadEnv, ∀ i : Int,
        (select_song s i now e).1.lastDownloadTime = now := by
      intro e i
      rw [select_song, if_neg hn]
      dsimp only
      cases ({ s with lastDownloadTime := now } : Session).searchResults with
      | none => rfl
      | some tracks =>
        dsimp only
        cases pyGet tracks i <;> rfl
    refine ⟨hsel env idx, ?_, ?_⟩
    · rw [download_page, if_neg hn]
      dsimp only
      cases hsr : ({ s with lastDownloadTime := now } : Session).searchResults with
      | none => rfl
      | some tracks =>
        cases hcp : ({ s with lastDownloadTime := now } : Session).currentPage with
        | none => simp [hsr, hcp]
        | some page => simp [hsr, hcp]
    · intro hnone
      have hexp : (select_song s idx now env).2 = Reply.sessionExpired := by
        rw [select_song, if_neg hn]
        dsimp only
        have : ({ s with lastDownloadTime := now } : Session).searchResults = none := hnone
        rw [this]
      refine ⟨hexp, ?_⟩
      intro idx2 now2 env2 h2
      have hlast := hsel env idx
      rw [select_song, hlast, if_pos h2]

/-- C9 (witness): a first click on an expired session at t = 40 s passes the
    gate, answers "session expired", and still consumes the cooldown: a
    second click 10 s later is denied with 20 s of wait. -/
theorem c9_gate_reservation_witness :
    (select_song initialSession 0 40000000 dummyDLEnv).1.lastDownloadTime = 40000000 ∧
    (select_song initialSession 0 40000000 dummyDLEnv).2 = Reply.sessionExpired ∧
    (select_song (select_song initialSession 0 40000000 dummyDLEnv).1 1 50000000
      dummyDLEnv).2 = Reply.rateLimited 20 := by
  have h := (c9_gate_reservation initialSession 0 40000000 dummyDLEnv
    (fun _ => dummyDLEnv)).2 (by decide)
  have h3 := (h.2.2 rfl).2 1 50000000 dummyDLEnv (by decide)
  refine ⟨h.1, (h.2.2 rfl).1, ?_⟩
  rw [h3]
  decide

/-! Claim C8. -/

/-- C8 (confirmed): starting from the empty history, after any sequence of
    search events recentQueries has at most 20 entries and no duplicate; a
    query already present leaves the list entirely unchanged, a new query is
    appended at the end, and when the list already holds 20 entries the
    oldest (head) entry is evicted.  The first conjunct ties the update to
    the search handler itself. -/
theorem c8_recent_queries :
    (∀ (s : Session) (text : String) (env : DisplayEnv), pyStrip text ≠ "" →
      (search_and_display s text env).1.recentQueries =
        updateRecent s.recentQueries (pyStrip text)) ∧
    (∀ qs : List String,
      (qs.foldl updateRecent []).Nodup ∧ (qs.foldl updateRecent []).length ≤ 20) ∧
    (∀ (rq : List String) (q : String), q ∈ rq → updateRecent rq q = rq) ∧
    (∀ (rq : List String) (q : String), q ∉ rq → rq.length < 20 →
      updateRecent rq q = rq ++ [q]) ∧
    (∀ (rq : List String) (q : String), q ∉ rq → rq.length = 20 →
      updateRecent rq q = rq.drop 1 ++ [q]) := by
  refine ⟨?_, ?_, ?_, ?_, ?_⟩
  · intro s text env ht
    rw [search_and_display]
    dsimp only
    rw [if_neg ht]
    by_cases h : env.tracks = []
    · rw [display_empty _ _ _ _ h]
    · exact (display_fields _ _ _ _ h).2.2.2.1
  · intro qs
    exact foldl_updateRecent_invariant qs [] List.nodup_nil (by simp)
  · intro rq q h
    rw [updateRecent, if_pos h]
  · intro rq q h hl
    rw [updateRecent, if_neg h]
    dsimp only
    rw [if_neg (by simp; omega)]
  · intro rq q h hl
    rw [updateRecent, if_neg h]
    dsimp only
    rw [if_pos (by simp [hl])]
    cases rq with
    | nil => simp at hl
    | cons a tl => simp

/-- C8 (witness): the recent-query rules applied concretely — the handler
    records "q2" after a search, a long history stays capped and
    duplicate-free, a repeated query changes nothing, and at 20 entries the
    oldest is evicted. -/
theorem c8_recent_queries_witness :
    (search_and_display sessionWithThree " q2 " twoTrackDisplayEnv).1.recentQueries =
      updateRecent ["q"] "q2" ∧
    (((List.range 25).map toString).foldl updateRecent []).length ≤ 20 ∧
    (((List.range 25).map toString).foldl updateRecent []).Nodup ∧
    updateRecent ["q"] "q" = ["q"] ∧
    updateRecent ["q"] "q2" = ["q", "q2"] ∧
    updateRecent ((List.range 20).map toString) "new" =
      ((List.range 20).map toString).drop 1 ++ ["new"] := by
  refine ⟨?_, (c8_recent_queries.2.1 ((List.range 25).map toString)).2,
    (c8_recent_queries.2.1 ((List.range 25).map toString)).1, ?_, ?_, ?_⟩
  · have h := c8_recent_queries.1 sessionWithThree " q2 " twoTrackDisplayEnv (by decide)
    rw [h]
    decide
  · exact c8_recent_queries.2.2.1 ["q"] "q" (by decide)
  · exact c8_recent_queries.2.2.2.1 ["q"] "q2" (by decide) (by decide)
  · exact c8_recent_queries.2.2.2.2 ((List.range 20).map toString) "new"
      (by decide) (by decide)

/-! Claim C2. -/

/-- A clean-start, clean-run subprocess environment that fails with exit
    code 2 and a short diagnostic. -/
def failEnv : DownloadEnv :=
  { startUSec := 0, runUSec := 0, exitCode := 2, stdoutText := "",
    stderrText := "boom", tmpdir := "/tmp/dl",
    tree := FSTree.node FSForest.nil [], sendAudioOk := true }

/-- C2 (counterexample): no fixed constant bounds the user-facing failure
    message over all error-stream contents — for any proposed bound B, a
    stderr of B+1 characters yields a longer message (the code never
    truncates). -/
theorem c2_counterexample :
    ¬ ∃ B : Nat, ∀ env : DownloadEnv,
      env.startUSec ≤ STARTUP_TIMEOUT_USEC →
      env.runUSec ≤ SPOTDL_TIMEOUT * 1000000 →
      env.exitCode ≠ 0 →
      ∀ m : String,
        failure_message (download_and_send_audio env).outcome = some m →
        m.length ≤ B := by
  rintro ⟨B, hB⟩
  have hd : download_and_send_audio
      { startUSec := 0, runUSec := 0, exitCode := 1, stdoutText := "",
        stderrText := String.mk (List.replicate (B + 1) 'a'), tmpdir := "/tmp/dl",
        tree := FSTree.node FSForest.nil [], sendAudioOk := true } =
      { outcome := DLOutcome.toolFailure (String.mk (List.replicate (B + 1) 'a')),
        killed := false } := by
    rw [download_and_send_audio, if_neg (by simp [STARTUP_TIMEOUT_USEC]),
      if_neg (by simp [SPOTDL_TIMEOUT]), if_pos (by simp)]
  have hm := hB
    { startUSec := 0, runUSec := 0, exitCode := 1, stdoutText := "",
      stderrText := String.mk (List.replicate (B + 1) 'a'), tmpdir := "/tmp/dl",
      tree := FSTree.node FSForest.nil [], sendAudioOk := true }
    (Nat.zero_le _) (Nat.zero_le _) (by simp)
    ("❌ Download failed:\n`" ++ String.mk (List.replicate (B + 1) 'a') ++ "`")
    (by rw [hd]; rfl)
  rw [String.length_append, String.length_append] at hm
  have hsl : (String.mk (List.replicate (B + 1) 'a')).length = B + 1 :=
    List.length_replicate _ _
  have ha : ("❌ Download failed:\n`" : String).length = 20 := by decide
  have hb : ("`" : String).length = 1 := by decide
  omega

/-- C2 (amended): a non-zero exit status is classified as a tool failure
    carrying the captured error-stream text, and the user-facing message
    embeds that text verbatim with NO truncation: its length is always the
    error text's length plus the constant 21, so no fixed bound on the
    message length exists. -/
theorem c2_tool_failure (env : DownloadEnv)
    (h1 : env.startUSec ≤ STARTUP_TIMEOUT_USEC)
    (h2 : env.runUSec ≤ SPOTDL_TIMEOUT * 1000000)
    (h3 : env.exitCode ≠ 0) :
    (download_and_send_audio env).outcome = DLOutcome.toolFailure env.stderrText ∧
    (download_and_send_audio env).killed = false ∧
    failure_message (download_and_send_audio env).outcome =
      some ("❌ Download failed:\n`" ++ env.stderrText ++ "`") ∧
    ∀ m : String,
      failure_message (download_and_send_audio env).outcome = some m →
      m.length = env.stderrText.length + 21 := by
  have hd : download_and_send_audio env =
      { outcome := DLOutcome.toolFailure env.stderrText, killed := false } := by
    rw [download_and_send_audio, if_neg (by omega), if_neg (by omega), if_pos h3]
  refine ⟨by rw [hd], by rw [hd], by rw [hd]; rfl, ?_⟩
  intro m hm
  rw [hd] at hm
  have hm2 : m = "❌ Download failed:\n`" ++ env.stderrText ++ "`" := by
    cases hm
    rfl
  subst hm2
  rw [String.length_append, String.length_append]
  have ha : ("❌ Download failed:\n`" : String).length = 20 := by decide
  have hb : ("`" : String).length = 1 := by decide
  omega

/-- C2 (witness): the amended theorem at a concrete failing run — stderr
    "boom" (4 characters) produces exactly the 25-character message. -/
theorem c2_tool_failure_witness :
    (download_and_send_audio failEnv).outcome = DLOutcome.toolFailure "boom" ∧
    failure_message (download_and_send_audio failEnv).outcome =
      some "❌ Download failed:\n`boom`" ∧
    ∀ m : String,
      failure_message (download_and_send_audio failEnv).outcome = some m →
      m.length = 25 := by
  have h := c2_tool_failure failEnv (by decide) (by decide) (by decide)
  refine ⟨h.1, h.2.2.1, ?_⟩
  intro m hm
  have := h.2.2.2 m hm
  rw [this]
  decide

/-! Claim C5. -/

/-- C5 (confirmed): the two timeouts are independent and ordered — a
    subprocess creation slower than 5 seconds yields StartupTimeout no
    matter what the process would later do (no completion is awaited, no
    kill is issued); a started process running past 60 seconds is killed
    and yields ExecutionTimeout; and the two outcomes carry distinct
    user-facing messages. -/
theorem c5_two_timeouts (env : DownloadEnv) :
    (STARTUP_TIMEOUT_USEC < env.startUSec →
      download_and_send_audio env =
        { outcome := DLOutcome.startupTimeout, killed := false }) ∧
    (env.startUSec ≤ STARTUP_TIMEOUT_USEC → SPOTDL_TIMEOUT * 1000000 < env.runUSec →
      download_and_send_audio env =
        { outcome := DLOutcome.executionTimeout, killed := true }) ∧
    failure_message DLOutcome.startupTimeout ≠ failure_message DLOutcome.executionTimeout := by
  refine ⟨?_, ?_, by decide⟩
  · intro h
    rw [download_and_send_audio, if_pos h]
  · intro h1 h2
    rw [download_and_send_audio, if_neg (by omega), if_pos h2]

/-- C5 (witness): a 5.5-second startup gives StartupTimeout (even though the
    run itself would be fast and succeed), and a 1-second startup with a
    61-second run gives ExecutionTimeout with the process killed. -/
theorem c5_two_timeouts_witness :
    download_and_send_audio
      { startUSec := 5500000, runUSec := 100, exitCode := 0, stdoutText := "",
        stderrText := "", tmpdir := "/tmp/dl", tree := nestedTree,
        sendAudioOk := true } =
      { outcome := DLOutcome.startupTimeout, killed := false } ∧
    download_and_send_audio
      { startUSec := 1000000, runUSec := 61000000, exitCode := 0, stdoutText := "",
        stderrText := "", tmpdir := "/tmp/dl", tree := nestedTree,
        sendAudioOk := true } =
      { outcome := DLOutcome.executionTimeout, killed := true } := by
  constructor
  · exact (c5_two_timeouts _).1 (by decide)
  · exact (c5_two_timeouts _).2.1 (by decide) (by decide)

/-! Claim C6. -/

/-- C6 (confirmed): on a zero exit status the orchestrator searches the
    scratch tree in the deterministic top-down walk order for the first file
    whose name ends in ".mp3" case-insensitively and at any depth; the
    outcome is ArtifactMissing exactly when no such file exists anywhere in
    the tree, and when the walk finds a path the outcome delivers that very
    path (or reports a transport error for it). -/
theorem c6_artifact_search (env : DownloadEnv)
    (h1 : env.startUSec ≤ STARTUP_TIMEOUT_USEC)
    (h2 : env.runUSec ≤ SPOTDL_TIMEOUT * 1000000)
    (h3 : env.exitCode = 0) :
    ((download_and_send_audio env).outcome = DLOutcome.artifactMissing ↔
      treeHasMp3 env.tree = false) ∧
    (∀ p : String, find_mp3_file env.tmpdir env.tree = some p →
      (download_and_send_audio env).outcome =
        (if env.sendAudioOk then DLOutcome.delivered p else DLOutcome.sendError p)) := by
  have hz : ¬ (env.exitCode ≠ 0) := by simp [h3]
  cases hf : find_mp3_file env.tmpdir env.tree with
  | none =>
    have hm := (find_mp3_file_eq_none env.tmpdir env.tree).mp hf
    constructor
    · rw [download_and_send_audio, if_neg (by omega), if_neg (by omega), if_neg hz, hf]
      simp [hm]
    · intro p hp
      cases hp
  | some p0 =>
    have hsome : treeHasMp3 env.tree = true := by
      have hi := find_mp3_file_isSome env.tmpdir env.tree
      rw [hf] at hi
      exact hi.symm
    constructor
    · rw [download_and_send_audio, if_neg (by omega), if_neg (by omega), if_neg hz, hf,
        hsome]
      by_cases hs : env.sendAudioOk <;> simp [hs]
    · intro p hp
      injection hp with hpp
      subst hpp
      rw [download_and_send_audio, if_neg (by omega), if_neg (by omega), if_neg hz, hf]
      by_cases hs : env.sendAudioOk <;> simp [hs]

/-- C6 (witness): the walk locates output/sub/TRACK.Mp3 two directories deep
    (case-insensitively) and the orchestrator delivers exactly that path,
    while an empty scratch tree with exit 0 is ArtifactMissing. -/
theorem c6_artifact_search_witness :
    find_mp3_file "/tmp/dl" nestedTree = some "/tmp/dl/output/sub/TRACK.Mp3" ∧
    (download_and_send_audio nestedDLEnv).outcome =
      DLOutcome.delivered "/tmp/dl/output/sub/TRACK.Mp3" ∧
    (download_and_send_audio dummyDLEnv).outcome = DLOutcome.artifactMissing := by
  have hfind : find_mp3_file "/tmp/dl" nestedTree =
      some "/tmp/dl/output/sub/TRACK.Mp3" := by decide
  have h := (c6_artifact_search nestedDLEnv (by decide) (by decide) rfl).2
    "/tmp/dl/output/sub/TRACK.Mp3" hfind
  have h2 := ((c6_artifact_search dummyDLEnv (by decide) (by decide) rfl).1).mpr
    (by decide)
  exact ⟨hfind, by rw [h]; rfl, h2⟩

/-! Claim C3. -/

/-- C3 (confirmed): a search event whose catalog response is empty reports
    "No results found." and leaves the session's results, current page and
    active query exactly as they were (R, p, q); only a search returning at
    least one track replaces them (installing the new results, page 1, and
    the new query). -/
theorem c3_empty_search_frame (s : Session) (text : String) (env : DisplayEnv)
    (R : List Track) (p : Nat) (q0 : String)
    (hR : s.searchResults = some R) (hp : s.currentPage = some p)
    (hq : s.activeQuery = some q0) (ht : pyStrip text ≠ "") :
    (env.tracks = [] →
      (search_and_display s text env).2 = Reply.noResults ∧
      (search_and_display s text env).1.searchResults = some R ∧
      (search_and_display s text env).1.currentPage = some p ∧
      (search_and_display s text env).1.activeQuery = some q0) ∧
    (env.tracks ≠ [] →
      (search_and_display s text env).1.searchResults = some env.tracks ∧
      (search_and_display s text env).1.currentPage = some 1 ∧
      (search_and_display s text env).1.activeQuery = some (pyStrip text)) := by
  constructor
  · intro he
    rw [search_and_display]
    dsimp only
    rw [if_neg ht, display_empty _ _ _ _ he]
    exact ⟨rfl, hR, hp, hq⟩
  · intro he
    rw [search_and_display]
    dsimp only
    rw [if_neg ht]
    have h := display_fields
      { s with recentQueries := updateRecent s.recentQueries (pyStrip text) }
      (pyStrip text) 1 env he
    exact ⟨h.1, h.2.1, h.2.2.1⟩

/-- C3 (witness): with three stored results on page 1 for query "q", an
    empty response to " lyrics " leaves all three components intact, while a
    two-track response replaces the results. -/
theorem c3_empty_search_frame_witness :
    (search_and_display sessionWithThree " lyrics " emptyDisplayEnv).2 = Reply.noResults ∧
    (search_and_display sessionWithThree " lyrics " emptyDisplayEnv).1.searchResults =
      some threeTracks ∧
    (search_and_display sessionWithThree " lyrics " emptyDisplayEnv).1.currentPage = some 1 ∧
    (search_and_display sessionWithThree " lyrics " emptyDisplayEnv).1.activeQuery = some "q" ∧
    (search_and_display sessionWithThree " lyrics " twoTrackDisplayEnv).1.searchResults =
      some [track2, track3] := by
  have h1 := (c3_empty_search_frame sessionWithThree " lyrics " emptyDisplayEnv
    threeTracks 1 "q" rfl rfl rfl (by decide)).1 rfl
  have h2 := (c3_empty_search_frame sessionWithThree " lyrics " twoTrackDisplayEnv
    threeTracks 1 "q" rfl rfl rfl (by decide)).2 (by decide)
  exact ⟨h1.1, h1.2.1, h1.2.2.1, h1.2.2.2, h2.1⟩

/-! Claim C4. -/

/-- C4 (counterexample): the claim promises the uniform session-expired
    reply for every select-one event on a session with no prior search, and
    a corrective message for every index outside [0, count-1].  Both fail:
    a no-search session still inside the cooldown gets the rate-limit denial
    instead, and the out-of-range index -1 is resolved Python-style to the
    last track and proceeds to a download. -/
theorem c4_counterexample :
    ((select_song initialSession 0 10000000 dummyDLEnv).2 = Reply.rateLimited 20 ∧
      (select_song initialSession 0 10000000 dummyDLEnv).2 ≠ Reply.sessionExpired) ∧
    ((select_song sessionWithThree (-1) 40000000 dummyDLEnv).2 =
        Reply.downloadStarted "c" "z"
          { outcome := DLOutcome.artifactMissing, killed := false } ∧
      (select_song sessionWithThree (-1) 40000000 dummyDLEnv).2 ≠ Reply.handlerError ∧
      (select_song sessionWithThree (-1) 40000000 dummyDLEnv).2 ≠ Reply.sessionExpired) := by
  decide

/-- C4 (amended): no handler indexes out of bounds or crashes.  Navigation
    on a session with no prior search always answers "session expired";
    select-one and download-page answer "session expired" only when the
    cooldown gate passes (within the cooldown the rate-limit denial comes
    first), and a select-one index that is ≥ the result count or < minus
    the result count lands in the handler's exception branch and yields its
    corrective error reply (a negative index ≥ minus the count resolves
    Python-style from the end and proceeds to download). -/
theorem c4_graceful_failure (s : Session) (d : NavDir) (denv : DisplayEnv)
    (idx now : Int) (env : DownloadEnv) (envs : Nat → DownloadEnv) :
    (s.currentPage = none ∨ s.activeQuery = none →
      handle_pagination s d denv = (s, Reply.sessionExpired)) ∧
    (DOWNLOAD_COOLDOWN ≤ now - s.lastDownloadTime → s.searchResults = none →
      (select_song s idx now env).2 = Reply.sessionExpired ∧
      (download_page s now envs).2 = Reply.sessionExpired) ∧
    (now - s.lastDownloadTime < DOWNLOAD_COOLDOWN →
      (select_song s idx now env).2 =
        Reply.rateLimited ((DOWNLOAD_COOLDOWN - (now - s.lastDownloadTime)) / 1000000) ∧
      (download_page s now envs).2 =
        Reply.rateLimited ((DOWNLOAD_COOLDOWN - (now - s.lastDownloadTime)) / 1000000)) ∧
    (DOWNLOAD_COOLDOWN ≤ now - s.lastDownloadTime → ∀ R : List Track,
      s.searchResults = some R →
      ((R.length : Int) ≤ idx ∨ (R.length : Int) + idx < 0) →
      (select_song s idx now env).2 = Reply.handlerError) := by
  refine ⟨?_, ?_, ?_, ?_⟩
  · intro h
    rw [handle_pagination]
    cases hcp : s.currentPage with
    | none => rfl
    | some p =>
      cases haq : s.activeQuery with
      | none => rfl
      | some q =>
        rcases h with h | h
        · rw [hcp] at h
          cases h
        · rw [haq] at h
          cases h
  · intro hc hnone
    have hn : ¬ (now - s.lastDownloadTime < DOWNLOAD_COOLDOWN) := by omega
    have h1 : ({ s with lastDownloadTime := now } : Session).searchResults = none := hnone
    constructor
    · rw [select_song, if_neg hn]
      dsimp only
      rw [h1]
    · rw [download_page, if_neg hn]
      dsimp only
      rw [h1]
  · intro hc
    rw [select_song, if_pos hc, download_page, if_pos hc]
    exact ⟨rfl, rfl⟩
  · intro hc R hR hidx
    have hn : ¬ (now - s.lastDownloadTime < DOWNLOAD_COOLDOWN) := by omega
    have h1 : ({ s with lastDownloadTime := now } : Session).searchResults = some R := hR
    rw [select_song, if_neg hn]
    dsimp only
    rw [h1]
    dsimp only
    rw [pyGet_none R idx hidx]

/-- C4 (witness): the amended theorem applied concretely — expired-session
    navigation, select and page download after the cooldown all reply
    "session expired"; within the cooldown the denial comes first; index 3
    of a 3-element result list and index -4 both land in the corrective
    error reply. -/
theorem c4_graceful_failure_witness :
    handle_pagination initialSession NavDir.next twoTrackDisplayEnv =
      (initialSession, Reply.sessionExpired) ∧
    (select_song initialSession 0 40000000 dummyDLEnv).2 = Reply.sessionExpired ∧
    (download_page initialSession 40000000 (fun _ => dummyDLEnv)).2 =
      Reply.sessionExpired ∧
    (select_song initialSession 0 10000000 dummyDLEnv).2 = Reply.rateLimited 20 ∧
    (select_song sessionWithThree 3 40000000 dummyDLEnv).2 = Reply.handlerError ∧
    (select_song sessionWithThree (-4) 40000000 dummyDLEnv).2 = Reply.handlerError := by
  have ha := (c4_graceful_failure initialSession NavDir.next twoTrackDisplayEnv
    0 40000000 dummyDLEnv (fun _ => dummyDLEnv)).1 (Or.inl rfl)
  have hb := (c4_graceful_failure initialSession NavDir.next twoTrackDisplayEnv
    0 40000000 dummyDLEnv (fun _ => dummyDLEnv)).2.1 (by decide) rfl
  have hc := (c4_graceful_failure initialSession NavDir.next twoTrackDisplayEnv
    0 10000000 dummyDLEnv (fun _ => dummyDLEnv)).2.2.1 (by decide)
  have hd := (c4_graceful_failure sessionWithThree NavDir.next twoTrackDisplayEnv
    3 40000000 dummyDLEnv (fun _ => dummyDLEnv)).2.2.2 (by decide) threeTracks rfl
    (by decide)
  have he := (c4_graceful_failure sessionWithThree NavDir.next twoTrackDisplayEnv
    (-4) 40000000 dummyDLEnv (fun _ => dummyDLEnv)).2.2.2 (by decide) threeTracks rfl
    (by decide)
  refine ⟨ha, hb.1, hb.2, ?_, hd, he⟩
  rw [hc.1]
  decide

/-! Claim C7. -/

/-- C7 (confirmed): for a session holding N ≥ 1 results, after any next or
    prev navigation the stored current page lies in
    [1, max 1 (ceil(N/5))] — where N is the result count at the moment of
    the event — and navigating next at the last page or prev at page 1
    leaves the current page unchanged (clamping makes it a no-op, not an
    error). -/
theorem c7_navigation_bounds (s : Session) (d : NavDir) (env : DisplayEnv)
    (R : List Track) (p : Nat) (q : String)
    (hR : s.searchResults = some R) (hp : s.currentPage = some p)
    (hq : s.activeQuery = some q) (_hN : 1 ≤ R.length) :
    (∃ p2 : Nat, (handle_pagination s d env).1.currentPage = some p2 ∧
      1 ≤ p2 ∧ p2 ≤ max 1 (ceil_div R.length ITEMS_PER_PAGE)) ∧
    (d = NavDir.next → p = max 1 (ceil_div R.length ITEMS_PER_PAGE) →
      (handle_pagination s d env).1.currentPage = some p) ∧
    (d = NavDir.prev → p = 1 →
      (handle_pagination s d env).1.currentPage = some 1) := by
  cases d with
  | next =>
    have key : (handle_pagination s NavDir.next env).1.currentPage =
        some (max 1 (min (p + 1) (max 1 (ceil_div R.length ITEMS_PER_PAGE)))) := by
      rw [handle_pagination, hp, hq]
      dsimp only
      rw [hR]
      simp only [Option.getD_some]
      rw [display_currentPage]
      split <;> rfl
    refine ⟨⟨_, key, by omega, by omega⟩, ?_, ?_⟩
    · intro _ hpv
      rw [key, hpv]
      exact congrArg some (by omega)
    · intro hcontra _
      cases hcontra
  | prev =>
    have key : (handle_pagination s NavDir.prev env).1.currentPage =
        some (max 1 (min (p - 1) (max 1 (ceil_div R.length ITEMS_PER_PAGE)))) := by
      rw [handle_pagination, hp, hq]
      dsimp only
      rw [hR]
      simp only [Option.getD_some]
      rw [display_currentPage]
      split <;> rfl
    refine ⟨⟨_, key, by omega, by omega⟩, ?_, ?_⟩
    · intro hcontra _
      cases hcontra
    · intro _ hpv
      rw [key, hpv]
      exact congrArg some (by omega)

/-- C7 (witness): with 3 results (1 page) the page stays 1 both when
    navigating next at the last page and prev at page 1. -/
theorem c7_navigation_bounds_witness :
    (handle_pagination sessionWithThree NavDir.next twoTrackDisplayEnv).1.currentPage =
      some 1 ∧
    (handle_pagination sessionWithThree NavDir.prev twoTrackDisplayEnv).1.currentPage =
      some 1 := by
  have h1 := (c7_navigation_bounds sessionWithThree NavDir.next twoTrackDisplayEnv
    threeTracks 1 "q" rfl rfl rfl (by decide)).2.1 rfl (by decide)
  have h2 := (c7_navigation_bounds sessionWithThree NavDir.prev twoTrackDisplayEnv
    threeTracks 1 "q" rfl rfl rfl (by decide)).2.2 rfl rfl
  exact ⟨h1, h2⟩

/-! Claim C10. -/

/-- C10 (confirmed): every navigation event re-runs the catalog search with
    the session's stored active query and replaces the stored results
    wholesale with the fresh response before rendering; the rendered window
    (the track buttons) is computed from the fresh response, not from the
    result set the pressed buttons were generated from. -/
theorem c10_requery_replaces (s : Session) (d : NavDir) (env : DisplayEnv)
    (p : Nat) (q : String) (hp : s.currentPage = some p) (hq : s.activeQuery = some q)
    (hne : env.tracks ≠ []) :
    (handle_pagination s d env).1.searchResults = some env.tracks ∧
    (handle_pagination s d env).1.activeQuery = some q ∧
    ∃ pg total : Nat, (handle_pagination s d env).2 =
      Reply.rendered q pg total (trackButtons env.tracks pg)
        (decide (1 < pg)) (decide (pg < total)) := by
  rw [handle_pagination, hp, hq]
  dsimp only
  exact ⟨(display_fields _ _ _ _ hne).1, (display_fields _ _ _ _ hne).2.2.1,
    _, _, (display_fields _ _ _ _ hne).2.2.2.2.2⟩

/-- C10 (witness): navigating next from a session holding threeTracks with a
    fresh two-track response stores the two fresh tracks (a different result
    set than before) and renders buttons built from them. -/
theorem c10_requery_replaces_witness :
    (handle_pagination sessionWithThree NavDir.next twoTrackDisplayEnv).1.searchResults =
      some [track2, track3] ∧
    (handle_pagination sessionWithThree NavDir.next twoTrackDisplayEnv).1.searchResults ≠
      some threeTracks ∧
    (handle_pagination sessionWithThree NavDir.next twoTrackDisplayEnv).1.activeQuery =
      some "q" ∧
    ∃ pg total : Nat,
      (handle_pagination sessionWithThree NavDir.next twoTrackDisplayEnv).2 =
        Reply.rendered "q" pg total (trackButtons [track2, track3] pg)
          (decide (1 < pg)) (decide (pg < total)) := by
  have h := c10_requery_replaces sessionWithThree NavDir.next twoTrackDisplayEnv
    1 "q" rfl rfl (by decide)
  refine ⟨h.1, ?_, h.2.1, h.2.2⟩
  rw [h.1]
  decide
